import Mathlib

/-!
Shallow embedding of `src/hdf5_output.h` (class `H5OutputFile`) from the
VELOCIraptor-STF repository: a thin adapter over the HDF5 C API that
creates one output file, writes typed N-dimensional datasets and scalar
attributes, and aborts the process on any detected failure.

Modelling conventions:
* The adapter's only state is the `file_id` member, embedded as an `Int`
  (`-1` means "no file open", a nonnegative value is a held handle).
* Results of the underlying HDF5 library calls (`H5Fcreate`, `H5Dcreate`,
  `H5Dwrite`, `H5Oopen`, `H5Acreate`, `H5Awrite`, `H5Fclose`) are supplied
  as explicit integer parameters, since the library itself is external.
* `io_error` (print a message, then abort, never return) is embedded as
  the `Outcome.fatal message` constructor; a normal return is `Outcome.ok`.
* `hsize_t` extents are embedded as `Nat`; the `dims` pointer together
  with `rank` is embedded as a `List Nat` whose length is the rank.
* HDF5 type identifiers (`hid_t` values such as `H5T_NATIVE_FLOAT`) are
  embedded as an enumeration `HType`; the default argument
  `hid_t filetype_id = -1` ("no override") is embedded as `Option HType`
  with `none` for `-1`.
-/

namespace H5Out

/-- `#define CHUNK_SIZE 8192` from the source. -/
def CHUNK_SIZE : Nat := 8192

/-- `#define DEFLATE 6` from the source. -/
def DEFLATE : Nat := 6

/-- The HDF5 native type identifiers returned by the `hdf5_type` overloads. -/
inductive HType where
  | native_float
  | native_double
  | native_int
  | native_long
  | native_llong
  | native_uint
  | native_ulong
  | native_ullong
  deriving DecidableEq, Repr, Fintype

/-- The C element types for which an `hdf5_type` overload exists in the
source (one constructor per overload). -/
inductive CType where
  | cfloat
  | cdouble
  | cint
  | clong
  | cllong
  | cuint
  | culong
  | cullong
  deriving DecidableEq, Repr, Fintype

/-- The overload set `hid_t hdf5_type(...)` of the source, lines 58-65:
each supported C type is mapped to the corresponding HDF5 native type
identifier. -/
def hdf5_type : CType → HType
  | .cfloat  => .native_float
  | .cdouble => .native_double
  | .cint    => .native_int
  | .clong   => .native_long
  | .cllong  => .native_llong
  | .cuint   => .native_uint
  | .culong  => .native_ulong
  | .cullong => .native_ullong

/-- Outcome of an adapter operation: `io_error` prints the message and
aborts the process (the call never returns), otherwise the operation
returns normally with a value. -/
inductive Outcome (α : Type) where
  | fatal (message : String)
  | ok (value : α)
  deriving DecidableEq, Repr

/-- `H5OutputFile::create(filename)`, source lines 35-40. `file_id` is the
state on entry and `r` is the result of the underlying
`H5Fcreate(filename, H5F_ACC_TRUNC, H5P_DEFAULT, H5P_DEFAULT)` call.
On success the returned value is the new `file_id`. -/
def create (file_id : Int) (filename : String) (r : Int) : Outcome Int :=
  if 0 ≤ file_id then .fatal "Attempted to create file when already open!"
  else if r < 0 then .fatal ("Failed to create output file: " ++ filename)
  else .ok r

/-- `H5OutputFile::close()`, source lines 43-48. `cr` is the result of the
underlying `H5Fclose(file_id)` call; the source discards it, so it does
not influence the outcome. On success the returned value is the new
`file_id`, which the source sets to `-1`. -/
def close (file_id : Int) (cr : Int) : Outcome Int :=
  if file_id < 0 then .fatal "Attempted to close file which is not open!"
  else .ok (-1)

/-- `H5OutputFile::~H5OutputFile()`, source lines 51-55: calls `close()`
iff `file_id >= 0`. The first component records whether `close()` was
invoked; the second is the resulting state (unchanged when `close()` is
not invoked). -/
def destructor (file_id : Int) (cr : Int) : Bool × Outcome Int :=
  if 0 ≤ file_id then (true, close file_id cr)
  else (false, .ok file_id)

/-- Contents of an HDF5 dataset-creation property list. A property list
fresh from `H5Pcreate(H5P_DATASET_CREATE)`, and likewise `H5P_DEFAULT`,
has the default (contiguous, uncompressed) settings. -/
structure PropList where
  layout_chunked : Bool
  chunk_dims : Option (List Nat)
  deflate_level : Option Nat
  deriving DecidableEq, Repr

/-- The default dataset-creation property list (`H5P_DEFAULT`, or a fresh
`H5Pcreate(H5P_DATASET_CREATE)` list before any `H5Pset_*` call). -/
def defaultPropList : PropList :=
  { layout_chunked := false, chunk_dims := none, deflate_level := none }

/-- The dataset as created by the `H5Dcreate` call: its name, on-disk
type, rank, extents, and the dataset-creation property list passed as the
`dcpl` argument of `H5Dcreate`. -/
structure Dataset where
  name : String
  filetype : HType
  rank : Nat
  dims : List Nat
  creation_props : PropList
  deriving DecidableEq, Repr

/-- Everything observable about one successful `write_dataset_nd` call:
the dataset given to `H5Dcreate`, the final contents of the local
property list `prop_id`, the memory type used in the `H5Dwrite` call,
and the adapter's `file_id` after the call returns. -/
structure NdWriteResult where
  dataset : Dataset
  prop_id : PropList
  write_memtype : HType
  file_id_after : Int
  deriving DecidableEq, Repr

/-- The loop over `i < rank` of source lines 95-97: `nonzero_size` starts
at 1 and is cleared when some `dims[i] == 0`. -/
def nonzero_size (dims : List Nat) : Bool :=
  dims.all (fun d => d != 0)

/-- The loop over `i < rank` of source lines 100-102: `large_dataset`
starts at 0 and is set when some `dims[i] > CHUNK_SIZE`. -/
def large_dataset (dims : List Nat) : Bool :=
  dims.any (fun d => decide (CHUNK_SIZE < d))

/-- `H5OutputFile::write_dataset_nd(name, rank, dims, data, filetype_id)`,
source lines 81-131. `ctype` is the element type `T` of `data`;
`filetype_id` is the optional on-disk type override (`none` embeds the
default argument `-1`); `dcreate_r` and `dwrite_r` are the results of the
underlying `H5Dcreate` and `H5Dwrite` calls.

The source configures the local property list `prop_id` (chunked layout,
chunk extents, deflate level) when `nonzero_size && large_dataset`, but
the `H5Dcreate` call on lines 118-119 passes `H5P_DEFAULT` for all three
of its property-list arguments, so the dataset is created with the
default creation properties; the configured `prop_id` is only ever passed
to `H5Pclose`. -/
def write_dataset_nd (file_id : Int) (name : String) (dims : List Nat)
    (ctype : CType) (filetype_id : Option HType)
    (dcreate_r dwrite_r : Int) : Outcome NdWriteResult :=
  let memtype_id := hdf5_type ctype
  let ftype := filetype_id.getD memtype_id
  let prop_id :=
    if nonzero_size dims && large_dataset dims then
      { layout_chunked := true
        chunk_dims := some (dims.map (fun d => min CHUNK_SIZE d))
        deflate_level := some DEFLATE }
    else defaultPropList
  let dset : Dataset :=
    { name := name, filetype := ftype, rank := dims.length, dims := dims
      creation_props := defaultPropList }
  if dcreate_r < 0 then .fatal ("Failed to create dataset: " ++ name)
  else if dwrite_r < 0 then .fatal ("Failed to write dataset: " ++ name)
  else .ok { dataset := dset, prop_id := prop_id, write_memtype := memtype_id
             file_id_after := file_id }

/-- `H5OutputFile::write_dataset(name, len, data, filetype_id)`, source
lines 70-76: sets `rank = 1` and `dims[1] = \x7b len \x7d`, then calls
`write_dataset_nd`. -/
def write_dataset (file_id : Int) (name : String) (len : Nat)
    (ctype : CType) (filetype_id : Option HType)
    (dcreate_r dwrite_r : Int) : Outcome NdWriteResult :=
  write_dataset_nd file_id name [len] ctype filetype_id dcreate_r dwrite_r

/-- Everything observable about one successful `write_attribute` call:
the name passed to `H5Oopen`, the object handle it returned, the location
id actually passed to `H5Acreate`, the attribute's name and type, whether
the dataspace was `H5Screate(H5S_SCALAR)`, and `file_id` after the call. -/
structure AttrWriteResult where
  opened_parent_name : String
  parent_obj : Int
  acreate_loc : Int
  attr_name : String
  dtype : HType
  scalar : Bool
  file_id_after : Int
  deriving DecidableEq, Repr

/-- `H5OutputFile::write_attribute(parent, name, data)`, source lines
133-157. `ctype` is the type `T` of `data`; `oopen_r`, `acreate_r` and
`awrite_r` are the results of the underlying `H5Oopen`, `H5Acreate` and
`H5Awrite` calls.

The source opens the parent object with
`H5Oopen(file_id, parent.c_str(), H5P_DEFAULT)`, but the `H5Acreate` call
on line 146 passes `file_id` — not the opened parent handle — as its
location argument. (The error messages on lines 147 and 151 append the
numeric `parent` handle, which shadows the `parent` string parameter; we
render that suffix with `toString`.) -/
def write_attribute (file_id : Int) (parent : String) (name : String)
    (ctype : CType) (oopen_r acreate_r awrite_r : Int) :
    Outcome AttrWriteResult :=
  let dtype_id := hdf5_type ctype
  let parent_id := oopen_r
  if parent_id < 0 then
    .fatal ("Unable to open object to write attribute: " ++ name)
  else if acreate_r < 0 then
    .fatal ("Unable to create attribute " ++ name ++ " on object "
            ++ toString parent_id)
  else if awrite_r < 0 then
    .fatal ("Unable to write attribute " ++ name ++ " on object "
            ++ toString parent_id)
  else .ok { opened_parent_name := parent, parent_obj := parent_id
             acreate_loc := file_id, attr_name := name, dtype := dtype_id
             scalar := true, file_id_after := file_id }

/-- The list of C element types accepted by the `hdf5_type` overload set
(one entry per overload, source lines 58-65). -/
def supportedKinds : List CType :=
  [.cfloat, .cdouble, .cint, .clong, .cllong, .cuint, .culong, .cullong]

/-- Substring test on character lists: `hasSub pat s` is `true` iff `pat`
occurs contiguously inside `s`. -/
def hasSub (pat : List Char) : List Char → Bool
  | [] => pat.isEmpty
  | c :: t => pat.isPrefixOf (c :: t) || hasSub pat t

/-- `strContains s pat` is `true` iff `pat` occurs as a contiguous
substring of `s`. -/
def strContains (s pat : String) : Bool :=
  hasSub pat.data s.data

theorem isPrefixOf_self_eq_true (l : List Char) : l.isPrefixOf l = true := by
  induction l with
  | nil => rfl
  | cons a t ih => simp [List.isPrefixOf, ih]

theorem hasSub_append_right (p n : List Char) : hasSub n (p ++ n) = true := by
  induction p with
  | nil =>
    cases n with
    | nil => rfl
    | cons c t => simp [hasSub, isPrefixOf_self_eq_true]
  | cons a p ih => simp [hasSub, ih]

theorem strContains_append_right (p n : String) :
    strContains (p ++ n) n = true := by
  show hasSub n.data (p ++ n).data = true
  have h : (p ++ n).data = p.data ++ n.data := rfl
  rw [h]
  exact hasSub_append_right p.data n.data

theorem isPrefixOf_append_right (n q : List Char) :
    n.isPrefixOf (n ++ q) = true := by
  induction n with
  | nil => simp [List.isPrefixOf]
  | cons a t ih => simp [List.isPrefixOf, ih]

theorem hasSub_mid (p n q : List Char) : hasSub n (p ++ n ++ q) = true := by
  induction p with
  | nil =>
    cases n with
    | nil =>
      cases q with
      | nil => rfl
      | cons c t => simp [hasSub, List.isPrefixOf]
    | cons c t => simp [hasSub, isPrefixOf_append_right]
  | cons a p ih =>
    have h : hasSub n ((a :: p) ++ n ++ q) =
        (n.isPrefixOf ((a :: p) ++ n ++ q) || hasSub n (p ++ n ++ q)) := rfl
    rw [h, ih, Bool.or_true]

theorem strContains_of_data (s pat : String) (p q : List Char)
    (h : s.data = p ++ pat.data ++ q) : strContains s pat = true := by
  show hasSub pat.data s.data = true
  rw [h]
  exact hasSub_mid p pat.data q

/-- C1 (code bug): on the input name `"x"`, rank 1, extents `[8193]`, the
chunking condition holds and the local property list `prop_id` is
configured with chunked layout, chunk extents `min(8192, 8193) = 8192`
and deflate level 6, yet the dataset handed to `H5Dcreate` carries the
default creation properties — contiguous, uncompressed — because the
source passes `H5P_DEFAULT`, not `prop_id`, to `H5Dcreate`. So chunking
is never applied to the created dataset even when the claim requires it. -/
theorem c1_chunk_props_never_passed_to_dcreate :
    write_dataset_nd 0 "x" [8193] .cdouble none 1 1 =
      .ok { dataset := { name := "x", filetype := .native_double, rank := 1,
                         dims := [8193], creation_props := defaultPropList },
            prop_id := { layout_chunked := true, chunk_dims := some [8192],
                         deflate_level := some 6 },
            write_memtype := .native_double, file_id_after := 0 } ∧
    nonzero_size [8193] = true ∧ large_dataset [8193] = true ∧
    defaultPropList.layout_chunked = false ∧
    defaultPropList.deflate_level = none := by
  decide

/-- C2 (code bug): on the input parent `"/grp"`, attribute `"attr"`, with
`file_id = 7` and the parent handle returned by `H5Oopen` being `42`, the
location passed to `H5Acreate` is `7` (the file), not `42` (the parent
object that was opened by name): the attribute is created on the file,
not on the opened parent. -/
theorem c2_attribute_created_on_file_not_parent :
    write_attribute 7 "/grp" "attr" .cdouble 42 1 1 =
      .ok { opened_parent_name := "/grp", parent_obj := 42, acreate_loc := 7,
            attr_name := "attr", dtype := .native_double, scalar := true,
            file_id_after := 7 } ∧
    (7 : Int) ≠ 42 := by
  decide

/-- C3: `create()` while a handle is held (`0 ≤ s`) is fatal; `create()`
with no handle held stores the new handle returned by `H5Fcreate`;
`close()` with no handle held is fatal; `close()` with a handle held
releases it and resets the state to `-1` ("no file open"). -/
theorem c3_create_close_state (s : Int) (fn : String) (r cr : Int) :
    (0 ≤ s →
      create s fn r = .fatal "Attempted to create file when already open!") ∧
    (s < 0 → 0 ≤ r → create s fn r = .ok r) ∧
    (s < 0 →
      close s cr = .fatal "Attempted to close file which is not open!") ∧
    (0 ≤ s → close s cr = .ok (-1)) := by
  refine ⟨fun h => ?_, fun h hr => ?_, fun h => ?_, fun h => ?_⟩
  · unfold create
    rw [if_pos h]
  · unfold create
    rw [if_neg (by omega), if_neg (by omega)]
  · unfold close
    rw [if_pos h]
  · unfold close
    rw [if_neg (by omega)]

theorem c3_witness :
    create 0 "out.hdf5" 5 = .fatal "Attempted to create file when already open!" ∧
    create (-1) "out.hdf5" 5 = .ok 5 ∧
    close (-1) 0 = .fatal "Attempted to close file which is not open!" ∧
    close 3 0 = .ok (-1) :=
  ⟨(c3_create_close_state 0 "out.hdf5" 5 0).1 (by decide),
   (c3_create_close_state (-1) "out.hdf5" 5 0).2.1 (by decide) (by decide),
   (c3_create_close_state (-1) "out.hdf5" 5 0).2.2.1 (by decide),
   (c3_create_close_state 3 "out.hdf5" 5 0).2.2.2 (by decide)⟩

/-- C4: whenever some extent equals 0, the chunking condition is false, so
the local property list keeps its default settings — and the dataset
handed to `H5Dcreate` has the default creation properties: no chunked
layout and no compression, regardless of the other extents. -/
theorem c4_zero_extent_never_chunked (s : Int) (name : String)
    (dims : List Nat) (ct : CType) (ft : Option HType) (dcr dwr : Int)
    (res : NdWriteResult) (h0 : 0 ∈ dims)
    (h : write_dataset_nd s name dims ct ft dcr dwr = .ok res) :
    res.prop_id = defaultPropList ∧
    res.dataset.creation_props = defaultPropList ∧
    res.dataset.creation_props.layout_chunked = false ∧
    res.dataset.creation_props.deflate_level = none := by
  have hnz : nonzero_size dims = false := by
    simp only [nonzero_size, List.all_eq_false]
    exact ⟨0, h0, by simp⟩
  simp only [write_dataset_nd, hnz, Bool.false_and, if_false] at h
  split at h
  · simp at h
  · split at h
    · simp at h
    · injection h with h2
      subst h2
      exact ⟨rfl, rfl, rfl, rfl⟩

theorem c4_witness :
    0 ∈ ([0, 9000] : List Nat) ∧
    ((⟨⟨"z", .native_double, 2, [0, 9000], defaultPropList⟩,
       defaultPropList, .native_double, 0⟩ : NdWriteResult).prop_id
        = defaultPropList) :=
  ⟨by decide,
   (c4_zero_extent_never_chunked 0 "z" [0, 9000] .cdouble none 1 1
     ⟨⟨"z", .native_double, 2, [0, 9000], defaultPropList⟩,
      defaultPropList, .native_double, 0⟩
     (by decide) (by decide)).1⟩

/-- C5: `write_dataset(name, len, data, filetype_id)` is exactly
`write_dataset_nd(name, 1, [len], data, filetype_id)`: the 1-D
convenience form delegates with rank 1 and the single extent `len`. -/
theorem c5_write_dataset_is_nd_rank1 (file_id : Int) (name : String)
    (len : Nat) (ctype : CType) (filetype_id : Option HType)
    (dcreate_r dwrite_r : Int) :
    write_dataset file_id name len ctype filetype_id dcreate_r dwrite_r =
      write_dataset_nd file_id name [len] ctype filetype_id dcreate_r dwrite_r ∧
    ([len] : List Nat).length = 1 :=
  ⟨rfl, rfl⟩

/-- C6: the destructor invokes `close()` exactly when a handle is held
(`0 ≤ s`); in that case the handle is released (state becomes `-1`,
without a fatal error, so it is released exactly once); when no handle is
held, `close()` is not invoked and the state is unchanged. -/
theorem c6_destructor_closes_iff_open (s cr : Int) :
    ((destructor s cr).1 = true ↔ 0 ≤ s) ∧
    (0 ≤ s → (destructor s cr).2 = .ok (-1)) ∧
    (s < 0 → (destructor s cr).1 = false ∧ (destructor s cr).2 = .ok s) := by
  unfold destructor
  by_cases h : 0 ≤ s
  · rw [if_pos h]
    refine ⟨by simp [h], fun _ => ?_, fun h2 => absurd h (by omega)⟩
    unfold close
    rw [if_neg (by omega)]
  · rw [if_neg h]
    exact ⟨by simpa using h, fun h2 => absurd h2 h, fun _ => ⟨rfl, rfl⟩⟩

theorem c6_witness :
    (destructor 4 0).2 = .ok (-1) ∧
    (destructor (-1) 0).1 = false ∧ (destructor (-1) 0).2 = .ok (-1) :=
  ⟨(c6_destructor_closes_iff_open 4 0).2.1 (by decide),
   (c6_destructor_closes_iff_open (-1) 0).2.2 (by decide)⟩

/-- C7 (counterexample): the `hdf5_type` overload set accepts eight C
element types, not seven: its domain `CType` has exactly eight
inhabitants (float, double, int, long, long long, and the three unsigned
integer kinds), so "exactly seven native numeric kinds" is false. -/
theorem c7_counterexample_eight_kinds :
    Fintype.card CType = 8 ∧ Fintype.card CType ≠ 7 ∧
    supportedKinds.length = 8 ∧ supportedKinds.Nodup := by
  decide

/-- C7 (amended): the fixed lookup supports exactly eight native numeric
kinds — 32/64-bit float, signed int/long/long-long and their unsigned
counterparts — mapping each one to the corresponding native type
identifier, and no other element type is accepted (the domain `CType`
has exactly these eight inhabitants). -/
theorem c7_hdf5_type_total_on_eight_kinds :
    hdf5_type .cfloat = .native_float ∧
    hdf5_type .cdouble = .native_double ∧
    hdf5_type .cint = .native_int ∧
    hdf5_type .clong = .native_long ∧
    hdf5_type .cllong = .native_llong ∧
    hdf5_type .cuint = .native_uint ∧
    hdf5_type .culong = .native_ulong ∧
    hdf5_type .cullong = .native_ullong ∧
    Fintype.card CType = 8 ∧ supportedKinds.Nodup ∧
    (∀ t : CType, t ∈ supportedKinds) := by
  decide

/-- C8 (counterexample): calling `create` while a handle is held prints
the fixed message "Attempted to create file when already open!", which
does not name the failing file (here `"somefile.hdf5"`), so the claim
that every detected failure prints a message naming the failing file,
dataset or attribute is false. -/
theorem c8_counterexample_misuse_message :
    create 0 "somefile.hdf5" 3 =
      .fatal "Attempted to create file when already open!" ∧
    strContains "Attempted to create file when already open!"
      "somefile.hdf5" = false := by
  decide

/-- C8 (amended): no operation ever returns a failure signal — each
detected failure is fatal (`io_error`: message printed, process
terminated, never returning). Failures of the underlying library calls
print a message that names the failing file, dataset or attribute; the
two misuse failures (`create` while open, `close` while not open) print
fixed messages that do not include the file name. -/
theorem c8_fatal_policy (s : Int) (fn name parent : String)
    (dims : List Nat) (ct : CType) (ft : Option HType)
    (r cr dcr dwr oor acr awr : Int) :
    (0 ≤ s →
      create s fn r = .fatal "Attempted to create file when already open!") ∧
    (s < 0 → r < 0 →
      create s fn r = .fatal ("Failed to create output file: " ++ fn) ∧
      strContains ("Failed to create output file: " ++ fn) fn = true) ∧
    (s < 0 →
      close s cr = .fatal "Attempted to close file which is not open!") ∧
    (dcr < 0 →
      write_dataset_nd s name dims ct ft dcr dwr =
        .fatal ("Failed to create dataset: " ++ name) ∧
      strContains ("Failed to create dataset: " ++ name) name = true) ∧
    (0 ≤ dcr → dwr < 0 →
      write_dataset_nd s name dims ct ft dcr dwr =
        .fatal ("Failed to write dataset: " ++ name) ∧
      strContains ("Failed to write dataset: " ++ name) name = true) ∧
    (oor < 0 →
      write_attribute s parent name ct oor acr awr =
        .fatal ("Unable to open object to write attribute: " ++ name) ∧
      strContains ("Unable to open object to write attribute: " ++ name)
        name = true) ∧
    (0 ≤ oor → acr < 0 →
      write_attribute s parent name ct oor acr awr =
        .fatal ("Unable to create attribute " ++ name ++ " on object "
                ++ toString oor) ∧
      strContains ("Unable to create attribute " ++ name ++ " on object "
                ++ toString oor) name = true) ∧
    (0 ≤ oor → 0 ≤ acr → awr < 0 →
      write_attribute s parent name ct oor acr awr =
        .fatal ("Unable to write attribute " ++ name ++ " on object "
                ++ toString oor) ∧
      strContains ("Unable to write attribute " ++ name ++ " on object "
                ++ toString oor) name = true) := by
  refine ⟨fun h => ?_, fun h hr => ⟨?_, strContains_append_right _ _⟩,
    fun h => ?_, fun h => ⟨?_, strContains_append_right _ _⟩,
    fun h h2 => ⟨?_, strContains_append_right _ _⟩,
    fun h => ⟨?_, strContains_append_right _ _⟩,
    fun h h2 => ⟨?_, ?_⟩, fun h h2 h3 => ⟨?_, ?_⟩⟩
  · unfold create
    rw [if_pos h]
  · unfold create
    rw [if_neg (by omega), if_pos (by omega)]
  · unfold close
    rw [if_pos h]
  · simp only [write_dataset_nd]
    rw [if_pos h]
  · simp only [write_dataset_nd]
    rw [if_neg (by omega), if_pos h2]
  · simp only [write_attribute]
    rw [if_pos h]
  · simp only [write_attribute]
    rw [if_neg (by omega), if_pos h2]
  · refine strContains_of_data _ _ ("Unable to create attribute ".data)
      ((" on object " ++ toString oor).data) ?_
    simp [String.data_append, List.append_assoc]
  · simp only [write_attribute]
    rw [if_neg (by omega), if_neg (by omega), if_pos h3]
  · refine strContains_of_data _ _ ("Unable to write attribute ".data)
      ((" on object " ++ toString oor).data) ?_
    simp [String.data_append, List.append_assoc]

theorem c8_witness :
    create 0 "f.hdf5" 3 = .fatal "Attempted to create file when already open!" ∧
    create (-1) "f.hdf5" (-1) =
      .fatal ("Failed to create output file: " ++ "f.hdf5") ∧
    close (-1) 0 = .fatal "Attempted to close file which is not open!" ∧
    write_dataset_nd 2 "dset" [4] .cint none (-1) 1 =
      .fatal ("Failed to create dataset: " ++ "dset") ∧
    write_dataset_nd 2 "dset" [4] .cint none 1 (-1) =
      .fatal ("Failed to write dataset: " ++ "dset") ∧
    write_attribute 2 "/grp" "attr" .cint (-1) 1 1 =
      .fatal ("Unable to open object to write attribute: " ++ "attr") ∧
    write_attribute 2 "/grp" "attr" .cint 9 (-1) 1 =
      .fatal ("Unable to create attribute " ++ "attr" ++ " on object "
              ++ toString (9 : Int)) ∧
    write_attribute 2 "/grp" "attr" .cint 9 1 (-1) =
      .fatal ("Unable to write attribute " ++ "attr" ++ " on object "
              ++ toString (9 : Int)) :=
  ⟨(c8_fatal_policy 0 "f.hdf5" "dset" "/grp" [4] .cint none 3 0 1 1 9 1 1).1
     (by decide),
   ((c8_fatal_policy (-1) "f.hdf5" "dset" "/grp" [4] .cint none (-1) 0 1 1 9 1
      1).2.1 (by decide) (by decide)).1,
   (c8_fatal_policy (-1) "f.hdf5" "dset" "/grp" [4] .cint none 3 0 1 1 9 1
      1).2.2.1 (by decide),
   ((c8_fatal_policy 2 "f.hdf5" "dset" "/grp" [4] .cint none 3 0 (-1) 1 9 1
      1).2.2.2.1 (by decide)).1,
   ((c8_fatal_policy 2 "f.hdf5" "dset" "/grp" [4] .cint none 3 0 1 (-1) 9 1
      1).2.2.2.2.1 (by decide) (by decide)).1,
   ((c8_fatal_policy 2 "f.hdf5" "attr" "/grp" [4] .cint none 3 0 1 1 (-1) 1
      1).2.2.2.2.2.1 (by decide)).1,
   ((c8_fatal_policy 2 "f.hdf5" "attr" "/grp" [4] .cint none 3 0 1 1 9 (-1)
      1).2.2.2.2.2.2.1 (by decide) (by decide)).1,
   ((c8_fatal_policy 2 "f.hdf5" "attr" "/grp" [4] .cint none 3 0 1 1 9 1
      (-1)).2.2.2.2.2.2.2 (by decide) (by decide) (by decide)).1⟩

/-- C9: `close()` never examines the result of the underlying `H5Fclose`
call: with a handle held it resets the state to `-1` and returns
normally whatever that result is (here quantified over both a failing
and a succeeding underlying result), so an underlying close failure is
silently ignored, never fatal. -/
theorem c9_close_ignores_underlying_result (s cr cr' : Int) (h : 0 ≤ s) :
    close s cr = .ok (-1) ∧ close s cr = close s cr' := by
  refine ⟨?_, rfl⟩
  unfold close
  rw [if_neg (by omega)]

theorem c9_witness :
    close 2 (-1) = .ok (-1) ∧ close 2 (-1) = close 2 7 :=
  c9_close_ignores_underlying_result 2 (-1) 7 (by decide)

/-- C10: `write_dataset_nd` and `write_attribute` never modify the
adapter's file-handle state: whenever either call returns, the stored
`file_id` after the call equals its value before the call. -/
theorem c10_write_ops_preserve_file_id (s : Int) (name parent : String)
    (dims : List Nat) (ct : CType) (ft : Option HType)
    (dcr dwr oor acr awr : Int) (res : NdWriteResult)
    (ares : AttrWriteResult) :
    (write_dataset_nd s name dims ct ft dcr dwr = .ok res →
      res.file_id_after = s) ∧
    (write_attribute s parent name ct oor acr awr = .ok ares →
      ares.file_id_after = s) := by
  constructor
  · intro h
    simp only [write_dataset_nd] at h
    split at h
    · simp at h
    · split at h
      · simp at h
      · injection h with h2
        subst h2
        rfl
  · intro h
    simp only [write_attribute] at h
    split at h
    · simp at h
    · split at h
      · simp at h
      · split at h
        · simp at h
        · injection h with h2
          subst h2
          rfl

theorem c10_witness :
    ((⟨⟨"d", .native_int, 1, [4], defaultPropList⟩, defaultPropList,
       .native_int, 5⟩ : NdWriteResult).file_id_after = (5 : Int)) ∧
    ((⟨"/", 9, 5, "d", .native_int, true, 5⟩ :
       AttrWriteResult).file_id_after = (5 : Int)) :=
  ⟨(c10_write_ops_preserve_file_id 5 "d" "/" [4] .cint none 1 1 9 1 1
      ⟨⟨"d", .native_int, 1, [4], defaultPropList⟩, defaultPropList,
       .native_int, 5⟩
      ⟨"/", 9, 5, "d", .native_int, true, 5⟩).1 (by decide),
   (c10_write_ops_preserve_file_id 5 "d" "/" [4] .cint none 1 1 9 1 1
      ⟨⟨"d", .native_int, 1, [4], defaultPropList⟩, defaultPropList,
       .native_int, 5⟩
      ⟨"/", 9, 5, "d", .native_int, true, 5⟩).2 (by decide)⟩

end H5Out
